import Mathlib

/-!
# Verification of the tumioparbe-backend enrollment/payment reconciliation engine

A shallow embedding, in Lean 4, of the enrollment-payment reconciliation
code of the tumioparbe-backend repository, together with theorems settling
the specification claims about it.

Conventions of the embedding:
* Python Decimal values are exact rationals (Rat); Decimal construction via
  str round-trips exactly, so it is the identity here.  The one place the
  code calls Decimal.quantize is modelled by quantize2 below.
* Wall-clock instants (timezone.now, expires_at, datetime.now) are integers
  (seconds); dates are year/month/day triples.
* Django querysets over list-backed tables: objects.get by a unique key is
  List.find?, objects.filter(...).exists() is List.any, row updates map over
  the table, deletion filters the table (modelling the declared
  on_delete=CASCADE from Payment.invoice: deleting an invoice also deletes
  the payments that reference it).
* ISO date strings inside the JSON intent snapshot are carried already
  parsed (date.fromisoformat is total on the data the system itself wrote;
  the malformed-string error branches of the views are not exercised by any
  claim and are noted in comments where they occur).
* The bKash HTTP gateway is an oracle: a function from payment id to the
  JSON response for reconciliation entry points, and a consumed script of
  HTTP results for the low-level client.
-/

namespace Tumio

/-- Monetary amounts (Python Decimal) as exact rationals. -/
abbrev Money := ℚ

/-- Wall-clock instants (timezone.now, expires_at) as integer seconds. -/
abbrev Instant := ℤ

/-- Calendar dates (datetime.date). -/
structure Date where
  year : ℕ
  month : ℕ
  day : ℕ
deriving DecidableEq

/-- Lexicographic strict order on dates, as Python date comparison. -/
def Date.lt (a b : Date) : Bool :=
  a.year < b.year ||
    (a.year == b.year && (a.month < b.month || (a.month == b.month && a.day < b.day)))

/-- date(first_month.year + first_month.month // 12, first_month.month % 12 + 1, 1)
(src/apps/enrollments/api/views.py lines 607-612 and 905-909): the calendar month
after d, normalized to day 1. -/
def Date.nextMonth (d : Date) : Date :=
  ⟨d.year + d.month / 12, d.month % 12 + 1, 1⟩

/-- date(today.year, today.month, 1): the first day of d's month
(serializers.py line 93). -/
def Date.monthStart (d : Date) : Date :=
  ⟨d.year, d.month, 1⟩

/-- Gregorian leap year, as Python calendar.isleap. -/
def isLeapYear (y : ℕ) : Bool :=
  y % 4 == 0 && (y % 100 != 0 || y % 400 == 0)

/-- calendar.monthrange(y, m).1 : the number of days of month m of year y. -/
def daysInMonth (y m : ℕ) : ℕ :=
  if m == 2 then (if isLeapYear y then 29 else 28)
  else if m == 4 || m == 6 || m == 9 || m == 11 then 30
  else 31

/-- Round a rational to the nearest integer, ties to even: the default
rounding (ROUND_HALF_EVEN) of Python's decimal module. -/
def roundHalfEven (q : ℚ) : ℤ :=
  let f : ℤ := ⌊q⌋
  let r : ℚ := q - (f : ℚ)
  if r < 1/2 then f
  else if 1/2 < r then f + 1
  else if f % 2 = 0 then f else f + 1

/-- Decimal(str(x)).quantize(Decimal('0.01')) (views.py line 348): round to
two decimal places, half to even. -/
def quantize2 (q : ℚ) : ℚ :=
  (roundHalfEven (q * 100) : ℚ) / 100

/-! ## Data model (apps/enrollments/models.py, apps/payments/models.py,
apps/courses/models.py) -/

/-- apps/courses/models.py Course (the fields the engine reads). -/
structure Course where
  id : ℕ
  admissionFee : Money
  monthlyFee : Money
deriving DecidableEq

/-- apps/courses/models.py Batch (the fields the engine reads);
tuition_fee is nullable. -/
structure Batch where
  id : ℕ
  course : ℕ
  tuitionFee : Option Money
deriving DecidableEq

/-- apps/enrollments/models.py Coupon. -/
structure Coupon where
  id : ℕ
  code : String
  discountTypes : List String
  discountValue : Option Money
  expiresAt : Instant
  isActive : Bool
deriving DecidableEq

/-- apps/enrollments/models.py Enrollment (tuition_fee nullable). -/
structure Enrollment where
  id : ℕ
  student : ℕ
  batch : ℕ
  startMonth : Date
  tuitionFee : Option Money
  isActive : Bool
deriving DecidableEq

/-- The serialized enrollment-intent payload stored on a provisional invoice
(temp_invoice_data) and posted back as enrollment_data: student id, batch id,
start month, tuition fee, coupon code, first_month_waiver flag.
start_month is carried parsed (see module comment); coupon_code None/empty is
none; first_month_waiver absent from the dict is none (dict.get default False). -/
structure EnrollmentData where
  student : ℕ
  batch : ℕ
  startMonth : Date
  tuitionFee : Option Money
  couponCode : Option String
  firstMonthWaiver : Option Bool
deriving DecidableEq

/-- The temp_invoice_data JSON field: either an enrollment-intent snapshot or
the multi-invoice bulk-payment marker (a dict with type set to
multi_invoice_payment and an invoice_ids list). -/
inductive TempData where
  | intent (d : EnrollmentData)
  | multi (invoiceIds : List ℕ)
deriving DecidableEq

/-- apps/payments/models.py Invoice; enrollment is nullable (provisional
invoices), unique_together (enrollment, month) for non-null enrollment. -/
structure Invoice where
  id : ℕ
  enrollment : Option ℕ
  month : Date
  amount : Money
  isPaid : Bool
  coupon : Option ℕ
  tempInvoice : Bool
  tempInvoiceData : Option TempData
deriving DecidableEq

/-- apps/payments/models.py Payment.STATUS_CHOICES. -/
inductive PaymentStatus where
  | initiated
  | completed
  | failed
  | cancelled
deriving DecidableEq

/-- apps/payments/models.py Payment; invoice is a non-null FK with
on_delete=CASCADE. -/
structure Payment where
  id : ℕ
  invoice : ℕ
  transactionId : String
  amount : Money
  status : PaymentStatus
  paymentId : Option String
  payerReference : Option String
  paymentCreateTime : Option Instant
  paymentExecuteTime : Option Instant
deriving DecidableEq

/-- The durable store: the tables the reconciliation engine touches, plus
fresh-id counters for rows the engine creates. -/
structure DB where
  courses : List Course
  batches : List Batch
  coupons : List Coupon
  enrollments : List Enrollment
  invoices : List Invoice
  payments : List Payment
  nextEnrollmentId : ℕ
  nextInvoiceId : ℕ
  nextPaymentId : ℕ
deriving DecidableEq

/-! ## Store helpers (Django ORM operations over the list-backed tables) -/

/-- Coupon.objects.get(code=...) (codes are unique). -/
def findCoupon (cs : List Coupon) (code : String) : Option Coupon :=
  cs.find? (fun c => c.code == code)

/-- Invoice.objects.get(id=...). -/
def findInvoice (db : DB) (i : ℕ) : Option Invoice :=
  db.invoices.find? (fun x => x.id == i)

/-- Payment.objects.get(payment_id=...) (gateway payment ids are unique per
attempt). -/
def findPaymentByPid (db : DB) (pid : String) : Option Payment :=
  db.payments.find? (fun p => p.paymentId == some pid)

/-- Batch.objects.get(id=...). -/
def findBatch (db : DB) (b : ℕ) : Option Batch :=
  db.batches.find? (fun x => x.id == b)

/-- Course.objects.get(id=...). -/
def findCourse (db : DB) (c : ℕ) : Option Course :=
  db.courses.find? (fun x => x.id == c)

/-- payment.save() after mutating an existing row. -/
def updatePayment (db : DB) (p : Payment) : DB :=
  { db with payments := db.payments.map (fun x => if x.id == p.id then p else x) }

/-- invoice.save() after mutating an existing row. -/
def updateInvoice (db : DB) (i : Invoice) : DB :=
  { db with invoices := db.invoices.map (fun x => if x.id == i.id then i else x) }

/-- invoice.delete(): removes the invoice row and, by the declared
on_delete=CASCADE of Payment.invoice, every payment row referencing it. -/
def deleteInvoice (db : DB) (i : ℕ) : DB :=
  { db with invoices := db.invoices.filter (fun x => x.id != i),
            payments := db.payments.filter (fun p => p.invoice != i) }

/-- Enrollment.objects.filter(student=s, batch=b, is_active=True).exists(). -/
def activeEnrollmentExists (es : List Enrollment) (s b : ℕ) : Bool :=
  es.any (fun e => e.student == s && e.batch == b && e.isActive)

/-- batch.course_id through the Batch table (0 for a dangling FK, which the
store's referential integrity rules out). -/
def courseOfBatch (bs : List Batch) (b : ℕ) : ℕ :=
  ((bs.find? (fun x => x.id == b)).map Batch.course).getD 0

/-- The storage-level unique constraint (enrollment, month): true when a row
with the same non-null enrollment and month already exists, in which case
Invoice.objects.create raises IntegrityError. -/
def invoiceConflict (db : DB) (e : ℕ) (m : Date) : Bool :=
  db.invoices.any (fun i => i.enrollment == some e && i.month == m)

/-- Invoice.objects.create: allocates the next id and appends, or fails on the
(enrollment, month) unique constraint. -/
def createInvoice (db : DB) (enr : Option ℕ) (m : Date) (amount : Money)
    (isPaid : Bool) (coupon : Option ℕ) (temp : Bool) (tempData : Option TempData) :
    Except Unit (DB × Invoice) :=
  match enr with
  | some e =>
    if invoiceConflict db e m then .error ()
    else
      let inv : Invoice := ⟨db.nextInvoiceId, enr, m, amount, isPaid, coupon, temp, tempData⟩
      .ok ({ db with invoices := db.invoices ++ [inv],
                     nextInvoiceId := db.nextInvoiceId + 1 }, inv)
  | none =>
    let inv : Invoice := ⟨db.nextInvoiceId, enr, m, amount, isPaid, coupon, temp, tempData⟩
    .ok ({ db with invoices := db.invoices ++ [inv],
                   nextInvoiceId := db.nextInvoiceId + 1 }, inv)

/-! ## Fee computation and coupon resolution
(EnrollmentViewSet.initiate, views.py lines 82-175, and the identical block of
initiate_payment, lines 295-348; CouponViewSet.validate, lines 1068-1076) -/

/-- Outcomes of coupon resolution: unknown code (Coupon.DoesNotExist, the
"Invalid coupon code" error) or expired (the "This coupon has expired" error). -/
inductive CouponError where
  | notFound
  | expired
deriving DecidableEq

/-- batch.tuition_fee or course.monthly_fee: Python or falls through when
tuition_fee is None or Decimal zero (both falsy). -/
def effectiveTuition (batchTuition : Option Money) (courseMonthly : Money) : Money :=
  match batchTuition with
  | some t => if t = 0 then courseMonthly else t
  | none => courseMonthly

/-- Python truthiness of a nullable Decimal (coupon.discount_value): falsy
exactly when None or zero. -/
def decimalTruthy : Option Money → Bool
  | none => false
  | some v => v != 0

/-- The coupon-application block shared verbatim by initiate (views.py lines
86-125) and initiate_payment (lines 299-329): look the code up, reject expired
ones, then apply ADMISSION (admission := 0), FIRST_MONTH (waiver flag only;
tuition deliberately not zeroed), and TUITION (percentage discount, when
discount_value is truthy).  Returns the adjusted
(admission, tuition, first_month_waiver, coupon-row) tuple.
An absent or empty coupon_code skips the block. -/
def applyCoupon (coupons : List Coupon) (now : Instant) (couponCode : Option String)
    (admissionFee tuitionFee : Money) :
    Except CouponError (Money × Money × Bool × Option Coupon) :=
  match couponCode with
  | none => .ok (admissionFee, tuitionFee, false, none)
  | some code =>
    if code == "" then .ok (admissionFee, tuitionFee, false, none)
    else
      match findCoupon coupons code with
      | none => .error .notFound
      | some coupon =>
        if coupon.expiresAt < now then .error .expired
        else
          let admission1 := if "ADMISSION" ∈ coupon.discountTypes then 0 else admissionFee
          let waiver := "FIRST_MONTH" ∈ coupon.discountTypes
          let tuition1 :=
            if "TUITION" ∈ coupon.discountTypes ∧ decimalTruthy coupon.discountValue then
              tuitionFee - tuitionFee * coupon.discountValue.getD 0 / 100
            else tuitionFee
          .ok (admission1, tuition1, waiver, some coupon)

/-- The fee quote initiate returns (views.py lines 127-171). -/
structure Quote where
  admissionFee : Money
  displayTuition : Money
  totalAmount : Money
  storedTuition : Money
  firstMonthWaiver : Bool
  couponApplied : Bool
deriving DecidableEq

/-- The fee computation of EnrollmentViewSet.initiate (views.py lines 82-171):
effective tuition, coupon adjustments, total = admission + tuition in both
waiver branches, the minimum-charge floor (total <= 0 becomes 1.00), the
displayed first-month tuition (0 under the waiver), and the stored recurring
tuition (line 147: the discounted tuition if positive, else the raw
batch-or-course fee). -/
def initiateQuote (coupons : List Coupon) (now : Instant)
    (batchTuition : Option Money) (courseMonthly courseAdmission : Money)
    (couponCode : Option String) : Except CouponError Quote := do
  let tuition0 := effectiveTuition batchTuition courseMonthly
  let (admission, tuition, waiver, coupon) ←
    applyCoupon coupons now couponCode courseAdmission tuition0
  let total0 := admission + tuition
  let displayTuition := if waiver then 0 else tuition
  let total := if total0 ≤ 0 then 1 else total0
  let storedTuition := if 0 < tuition then tuition else effectiveTuition batchTuition courseMonthly
  .ok ⟨admission, displayTuition, total, storedTuition, waiver, coupon.isSome⟩

/-- The amount initiate_payment charges at the gateway (views.py lines
295-348): the same fee block and floor as initiate, then
Decimal(str(total)).quantize(Decimal('0.01')) for bKash. -/
def initiatePaymentTotal (coupons : List Coupon) (now : Instant)
    (batchTuition : Option Money) (courseMonthly courseAdmission : Money)
    (couponCode : Option String) : Except CouponError Money := do
  let tuition0 := effectiveTuition batchTuition courseMonthly
  let (admission, tuition, _waiver, _coupon) ←
    applyCoupon coupons now couponCode courseAdmission tuition0
  let total0 := admission + tuition
  let total := if total0 ≤ 0 then 1 else total0
  .ok (quantize2 total)

/-- The decision prefix of CouponViewSet.validate (views.py lines 1068-1076):
404 Invalid coupon code for an unknown code, 400 This coupon has expired when
expires_at < now, otherwise the coupon proceeds to the benefits response. -/
inductive ValidateOutcome where
  | notFound404
  | expired400
  | proceeds (c : Coupon)
deriving DecidableEq

/-- CouponViewSet.validate's lookup-and-expiry decision (views.py 1068-1076). -/
def coupon_validate (coupons : List Coupon) (now : Instant) (code : String) :
    ValidateOutcome :=
  match findCoupon coupons code with
  | none => .notFound404
  | some coupon =>
    if coupon.expiresAt < now then .expired400 else .proceeds coupon

/-! ## Gateway oracle and HTTP responses -/

/-- A JSON response from the bKash gateway as the views read it; dict.get of
an absent key is none. -/
structure GatewayResp where
  statusCode : Option String
  statusMessage : Option String
  transactionStatus : Option String
  trxID : Option String
  customerMsisdn : Option String
deriving DecidableEq

/-- The gateway as an oracle for the reconciliation entry points: what
execute_payment and query_payment return for a given gateway payment id. -/
structure Gateway where
  execute : String → GatewayResp
  query : String → GatewayResp

/-- A record of the gateway calls a request issues (to state that a path
performs no execute or query call). -/
inductive GCall where
  | executeCall (pid : String)
  | queryCall (pid : String)
deriving DecidableEq

/-- What the claims need of a DRF response: HTTP status, error marker, and
the enrollment id carried in the body when one is returned. -/
structure Resp where
  status : ℕ
  error : Option String
  enrollmentId : Option ℕ
deriving DecidableEq

/-! ## Enrollment creation: serializer validation plus the model save guard -/

/-- Failure modes of serializer-driven enrollment creation: serializer.is_valid
failures become 400 responses; a django ValidationError raised from
Enrollment.save is not a DRF exception, so it surfaces as a 500. -/
inductive CreateEnrollErr where
  | invalid (msg : String)
  | saveGuard (msg : String)
deriving DecidableEq

/-- Enrollment.save (models.py lines 39-69): a row being saved active is
rejected (ValidationError) when another active enrollment of the same student
in a batch of the same course exists, excluding the row itself; otherwise the
row is inserted (fresh pk) or replaced (existing pk). -/
def enrollmentSave (batches : List Batch) (es : List Enrollment) (e : Enrollment) :
    Except String (List Enrollment) :=
  if e.isActive &&
      es.any (fun x => x.student == e.student &&
        courseOfBatch batches x.batch == courseOfBatch batches e.batch &&
        x.isActive && x.id != e.id) then
    .error "AlreadyEnrolled"
  else if es.any (fun x => x.id == e.id) then
    .ok (es.map (fun x => if x.id == e.id then e else x))
  else
    .ok (es ++ [e])

/-- EnrollmentSerializer on fresh data, then save (serializers.py lines
89-118, models.py lines 39-69): start_month must not precede the current
month, no active (student, batch) duplicate may exist, then the model-level
same-course guard runs.  The created row is active (enrollment_data carries
no is_active, so the model default applies). -/
def serializerCreateEnrollment (today : Date) (batches : List Batch)
    (es : List Enrollment) (d : EnrollmentData) (newId : ℕ) :
    Except CreateEnrollErr (List Enrollment × Enrollment) :=
  if Date.lt d.startMonth today.monthStart then
    .error (.invalid "Start month cannot be in the past")
  else if activeEnrollmentExists es d.student d.batch then
    .error (.invalid "This student is already enrolled in this batch")
  else
    let e : Enrollment := ⟨newId, d.student, d.batch, d.startMonth, d.tuitionFee, true⟩
    match enrollmentSave batches es e with
    | .error msg => .error (.saveGuard msg)
    | .ok es2 => .ok (es2, e)

/-- views.py lines 560-565 (also 856-858): enrollment.tuition_fee, falling
back to batch.tuition_fee or course.monthly_fee only when it is None (the
Python check is `is None`, so an explicit zero fee is kept). -/
def recurringFee (db : DB) (e : Enrollment) : Money :=
  match e.tuitionFee with
  | some t => t
  | none =>
    let b := (findBatch db e.batch).getD ⟨0, 0, none⟩
    let c := (findCourse db b.course).getD ⟨0, 0, 0⟩
    effectiveTuition b.tuitionFee c.monthlyFee

/-- The FIRST_MONTH re-check of complete_with_payment (views.py lines
576-584) and verify_and_complete_payment (lines 865-873): look the coupon
code up, ignoring lookup failure and expiry; an absent or empty code is
skipped (Python truthiness). -/
def couponRecheck (coupons : List Coupon) (code : Option String) : Option Coupon :=
  match code with
  | none => none
  | some c => if c == "" then none else findCoupon coupons c

/-! ## The explicit-completion entry point -/

/-- EnrollmentViewSet.complete_with_payment (views.py lines 436-694).
Phase 1 (lines 441-469): required-field and provisional-invoice checks.
Phase 2 (lines 471-537): optional gateway verification — execute, treating
gateway code 2062 "already completed" as success after a confirming query.
Phase 3 (lines 539-694): enrollment creation, first/next(/third) invoice
creation, payment re-pointing, provisional-invoice deletion. -/
def complete_with_payment (gw : Gateway) (now : Instant) (today : Date) (db : DB)
    (enrollmentData : Option EnrollmentData) (paymentIdParam : Option String)
    (tempInvoiceId : Option ℕ) : DB × Resp × List GCall :=
  match enrollmentData, tempInvoiceId with
  | none, _ =>
    (db, ⟨400, some "enrollment_data and temp_invoice_id are required", none⟩, [])
  | _, none =>
    (db, ⟨400, some "enrollment_data and temp_invoice_id are required", none⟩, [])
  | some ed, some tid =>
    match findInvoice db tid with
    | none => (db, ⟨400, some "Invalid temp invoice ID", none⟩, [])
    | some tempInv =>
      if !tempInv.tempInvoice || tempInv.enrollment.isSome then
        (db, ⟨400, some "Invalid temporary invoice", none⟩, [])
      else
        let phase2 : (DB × Option Payment × List GCall) ⊕ (Resp × List GCall) :=
          match paymentIdParam with
          | none => .inl (db, none, [])
          | some pid =>
            match findPaymentByPid db pid with
            | none => .inr (⟨400, some "Invalid payment ID", none⟩, [])
            | some payment =>
              if payment.invoice != tempInv.id then
                .inr (⟨400,
                  some "The payment is not associated with the provided temporary invoice",
                  none⟩, [])
              else if payment.status == .completed then
                .inl (db, some payment, [])
              else
                let er := gw.execute pid
                if er.statusCode == some "0000" && er.transactionStatus == some "Completed" then
                  let p2 := { payment with
                    status := .completed
                    paymentExecuteTime := some now
                    transactionId := er.trxID.getD payment.transactionId }
                  .inl (updatePayment db p2, some p2, [.executeCall pid])
                else if er.statusCode == some "2062" &&
                    er.statusMessage == some "The payment has already been completed" then
                  let qr := gw.query pid
                  if qr.statusCode == some "0000" && qr.transactionStatus == some "Completed" then
                    let p2 := { payment with
                      status := .completed
                      paymentExecuteTime := some now
                      transactionId := qr.trxID.getD payment.transactionId }
                    .inl (updatePayment db p2, some p2, [.executeCall pid, .queryCall pid])
                  else
                    .inr (⟨400, some "Payment verification failed", none⟩,
                      [.executeCall pid, .queryCall pid])
                else
                  .inr (⟨400, some "Payment execution failed", none⟩, [.executeCall pid])
        match phase2 with
        | .inr (r, calls) => (db, r, calls)
        | .inl (db1, payOpt, calls) =>
          match serializerCreateEnrollment today db1.batches db1.enrollments ed
              db1.nextEnrollmentId with
          | .error (.invalid msg) => (db1, ⟨400, some msg, none⟩, calls)
          | .error (.saveGuard msg) => (db1, ⟨500, some msg, none⟩, calls)
          | .ok (es2, e) =>
            let db2 := { db1 with
              enrollments := es2
              nextEnrollmentId := db1.nextEnrollmentId + 1 }
            let firstMonth := ed.startMonth
            let tuition := recurringFee db2 e
            let waiver0 := ed.firstMonthWaiver.getD false
            -- line 572: the waiver flag from enrollment_data zeroes the first fee
            let fee0 : Money := if waiver0 then 0 else tuition
            let coupon := couponRecheck db2.coupons ed.couponCode
            let wf : Bool × Money :=
              match coupon with
              | some c =>
                if "FIRST_MONTH" ∈ c.discountTypes then (true, (0 : Money))
                else (waiver0, fee0)
              | none => (waiver0, fee0)
            let waiver := wf.1
            let firstFee := wf.2
            match createInvoice db2 (some e.id) firstMonth firstFee true
                (coupon.map Coupon.id) false none with
            | .error () => (db2, ⟨500, some "Failed to create invoice", none⟩, calls)
            | .ok (db3, firstInv) =>
              let nextM := firstMonth.nextMonth
              -- lines 622-634: a failed next-month create is swallowed
              let step4 : DB × Option Invoice :=
                match createInvoice db3 (some e.id) nextM tuition waiver
                    (if waiver then coupon.map Coupon.id else none) false none with
                | .ok (db4, nextInv) => (db4, some nextInv)
                | .error () => (db3, none)
              let db4 := step4.1
              let nextInvOpt := step4.2
              -- lines 636-646: re-point the payment to the invoice the money paid
              match payOpt with
              | some pay =>
                match (if waiver then nextInvOpt.map Invoice.id else some firstInv.id) with
                | none =>
                  -- waiver with swallowed next-month failure: the re-point reads
                  -- the unbound next_month_invoice local, a NameError 500
                  (db4, ⟨500, some "NameError", none⟩, calls)
                | some target =>
                  let db5 := updatePayment db4 { pay with invoice := target }
                  let db6 := deleteInvoice db5 tid
                  let db7 :=
                    if waiver then
                      match createInvoice db6 (some e.id) nextM.nextMonth tuition false
                          none false none with
                      | .ok (d, _) => d
                      | .error () => db6
                    else db6
                  (db7, ⟨201, none, some e.id⟩, calls)
              | none =>
                let db6 := deleteInvoice db4 tid
                let db7 :=
                  if waiver then
                    match createInvoice db6 (some e.id) nextM.nextMonth tuition false
                        none false none with
                    | .ok (d, _) => d
                    | .error () => db6
                  else db6
                (db7, ⟨201, none, some e.id⟩, calls)

/-! ## The recovery entry point -/

/-- EnrollmentViewSet.verify_and_complete_payment (views.py lines 696-997).
Short-circuits to the existing enrollment when the payment is already
completed and its invoice carries one (lines 713-729); otherwise verifies via
the gateway query, updates or creates the Payment row, takes the dedup path
when an active (student, batch) enrollment already exists (lines 776-824), or
materializes a new enrollment with its first/next(/third) invoices. -/
def verify_and_complete_payment (gw : Gateway) (now : Instant) (today : Date)
    (db : DB) (enrollmentData : Option EnrollmentData) (paymentIdParam : Option String)
    (tempInvoiceId : Option ℕ) : DB × Resp × List GCall :=
  match paymentIdParam, enrollmentData, tempInvoiceId with
  | none, _, _ =>
    (db, ⟨400, some "bkash_payment_id, enrollment_data, and temp_invoice_id are required",
      none⟩, [])
  | _, none, _ =>
    (db, ⟨400, some "bkash_payment_id, enrollment_data, and temp_invoice_id are required",
      none⟩, [])
  | _, _, none =>
    (db, ⟨400, some "bkash_payment_id, enrollment_data, and temp_invoice_id are required",
      none⟩, [])
  | some pid, some ed, some tid =>
    let short : Option ℕ :=
      match findPaymentByPid db pid with
      | some p =>
        if p.status == .completed then
          match findInvoice db p.invoice with
          | some inv => inv.enrollment
          | none => none
        else none
      | none => none
    match short with
    | some eid => (db, ⟨200, none, some eid⟩, [])
    | none =>
      let qr := gw.query pid
      let calls := [GCall.queryCall pid]
      if qr.statusCode == some "0000" && qr.transactionStatus == some "Completed" then
        let step2 : (DB × Payment) ⊕ Resp :=
          match findPaymentByPid db pid with
          | some p =>
            if p.status != .completed then
              let p2 := { p with
                status := .completed
                paymentExecuteTime := some now
                transactionId := qr.trxID.getD p.transactionId }
              .inl (updatePayment db p2, p2)
            else .inl (db, p)
          | none =>
            match findInvoice db tid with
            | none => .inr ⟨400, some "Temporary invoice not found", none⟩
            | some ti =>
              let p2 : Payment := ⟨db.nextPaymentId, ti.id, qr.trxID.getD "", ti.amount,
                .completed, some pid, some (qr.customerMsisdn.getD ""), some now, some now⟩
              .inl ({ db with
                payments := db.payments ++ [p2]
                nextPaymentId := db.nextPaymentId + 1 }, p2)
        match step2 with
        | .inr r => (db, r, calls)
        | .inl (db1, pay) =>
          match db1.enrollments.find? (fun e =>
              e.student == ed.student && e.batch == ed.batch && e.isActive) with
          | some ex =>
            -- dedup path: link the payment to the existing first-month invoice
            -- (when one exists), drop the provisional invoice, return 200
            let fOpt := db1.invoices.find? (fun i =>
              i.enrollment == some ex.id && i.month == ex.startMonth)
            let db2 :=
              match fOpt with
              | some f => updatePayment db1 { pay with invoice := f.id }
              | none => db1
            let db3 := if (findInvoice db2 tid).isSome then deleteInvoice db2 tid else db2
            (db3, ⟨200, none, some ex.id⟩, calls)
          | none =>
            match serializerCreateEnrollment today db1.batches db1.enrollments ed
                db1.nextEnrollmentId with
            | .error (.invalid msg) => (db1, ⟨400, some msg, none⟩, calls)
            | .error (.saveGuard msg) => (db1, ⟨500, some msg, none⟩, calls)
            | .ok (es2, e) =>
              let db2 := { db1 with
                enrollments := es2
                nextEnrollmentId := db1.nextEnrollmentId + 1 }
              let firstMonth := ed.startMonth
              let tuition := recurringFee db2 e
              let waiver0 := ed.firstMonthWaiver.getD false
              let coupon := couponRecheck db2.coupons ed.couponCode
              -- line 863: unlike complete_with_payment, the flag alone does NOT
              -- zero the first-month fee here; only a FIRST_MONTH coupon does
              let wf : Bool × Money :=
                match coupon with
                | some c =>
                  if "FIRST_MONTH" ∈ c.discountTypes then (true, (0 : Money))
                  else (waiver0, tuition)
                | none => (waiver0, tuition)
              let waiver := wf.1
              let firstFee := wf.2
              match createInvoice db2 (some e.id) firstMonth firstFee true
                  (coupon.map Coupon.id) false none with
              | .error () => (db2, ⟨500, some "Failed to create invoice", none⟩, calls)
              | .ok (db3, firstInv) =>
                -- line 888: link the payment to the first invoice, then drop the
                -- provisional invoice (safe: the payment no longer references it)
                let db4 := updatePayment db3 { pay with invoice := firstInv.id }
                let db5 := if (findInvoice db4 tid).isSome then deleteInvoice db4 tid else db4
                let nextM := firstMonth.nextMonth
                match createInvoice db5 (some e.id) nextM tuition waiver
                    (if waiver then coupon.map Coupon.id else none) false none with
                | .ok (db6, nextInv) =>
                  let pay2 := if waiver then { pay with invoice := nextInv.id }
                              else { pay with invoice := firstInv.id }
                  let db7 := updatePayment db6 pay2
                  let db8 :=
                    if waiver then
                      match createInvoice db7 (some e.id) nextM.nextMonth tuition false
                          none false none with
                      | .ok (d, _) => d
                      | .error () => db7
                    else db7
                  (db8, ⟨201, none, some e.id⟩, calls)
                | .error () =>
                  if waiver then (db5, ⟨500, some "NameError", none⟩, calls)
                  else
                    let db6 := updatePayment db5 { pay with invoice := firstInv.id }
                    (db6, ⟨201, none, some e.id⟩, calls)
      else (db, ⟨400, some "Payment verification failed", none⟩, calls)

/-! ## Webhook (BkashWebhookView, payments/api/views.py lines 684-870) -/

/-- The parsed Message of a payment notification (webhook payload field
Message, a JSON-encoded string). -/
structure NotificationMsg where
  paymentID : Option String
  merchantInvoiceNumber : Option String
  transactionStatus : Option String
  trxID : Option String
deriving DecidableEq

/-- A parsed webhook body.  message models
json.loads(payload.get('Message', '\x7b\x7d')): none when the Message string
is present but malformed (JSONDecodeError); an absent Message key is the
empty message (all fields none). -/
structure WebhookPayload where
  typeField : Option String
  message : Option NotificationMsg
  subscribeURL : Option String
deriving DecidableEq

/-- An incoming webhook request: the x-bkash-signature header, the raw body,
and the body's JSON parse (none when json.loads raises). -/
structure WebhookRequest where
  signature : Option String
  rawBody : String
  payload : Option WebhookPayload

/-- hmac.compare_digest: a constant-time string comparison; functionally,
equality (the timing property itself has no shallow-embedding content). -/
def compare_digest (a b : String) : Bool := a == b

/-- BkashWebhookView.verify_signature (views.py lines 689-714): recompute
base64(HMAC-SHA256(raw body, app secret)) — the HMAC construction abstracted
as the function mac applied to the secret and the body — and compare in
constant time; a missing header fails. -/
def verify_signature (mac : String → String → String) (secret : String)
    (req : WebhookRequest) : Bool :=
  match req.signature with
  | none => false
  | some s => compare_digest s (mac secret req.rawBody)

/-- BkashWebhookView.process_completed_payment (views.py lines 716-822).
On a first Completed notification for a known payment: mark the payment
completed (a missing trxID would write NULL into the non-null transaction_id
column, an IntegrityError caught as failure), mark its invoice paid, then:
the bulk branch distributes a multi-invoice payment; for a provisional
enrollment invoice the handler calls
viewset.verify_and_complete_payment(request=None, data=...) — but that action
method accepts only (self, request), so the call raises TypeError, which the
except block swallows before returning True: the webhook never materializes
the enrollment, it only marks the payment and provisional invoice. -/
def process_completed_payment (now : Instant) (db : DB) (msg : NotificationMsg) :
    DB × Bool :=
  match msg.paymentID with
  | none => (db, false)
  | some pid =>
    if msg.transactionStatus != some "Completed" then (db, false)
    else
      match findPaymentByPid db pid with
      | none => (db, false)
      | some p =>
        if p.status == .completed then (db, true)
        else
          match msg.trxID with
          | none => (db, false)
          | some trx =>
            let p2 := { p with
              status := .completed
              paymentExecuteTime := some now
              transactionId := trx }
            let db1 := updatePayment db p2
            match findInvoice db1 p.invoice with
            | none => (db1, false)
            | some inv =>
              let db2 := updateInvoice db1 { inv with isPaid := true }
              match (if inv.tempInvoice then
                  (match inv.tempInvoiceData with
                   | some (.multi ids) => some ids
                   | _ => none)
                else none) with
              | some ids =>
                let db3 := ids.foldl (fun acc invId =>
                  match findInvoice acc invId with
                  | none => acc
                  | some indInv =>
                    let acc1 := updateInvoice acc { indInv with isPaid := true }
                    let newPay : Payment := ⟨acc1.nextPaymentId, indInv.id,
                      trx ++ "-" ++ toString indInv.id, indInv.amount, .completed,
                      some pid, p2.payerReference, p2.paymentCreateTime,
                      p2.paymentExecuteTime⟩
                    { acc1 with
                      payments := acc1.payments ++ [newPay]
                      nextPaymentId := acc1.nextPaymentId + 1 }) db2
                let db4 := { db3 with
                  payments := db3.payments.filter (fun x => x.id != p2.id) }
                (deleteInvoice db4 inv.id, true)
              | none =>
                -- the enrollment-intent branch (TypeError swallowed) and the
                -- plain branch both end in return True with no further change
                (db2, true)

/-- BkashWebhookView.post (views.py lines 824-870): signature gate first
(403 on failure, before touching any state), then dispatch on the
notification type. -/
def webhook_post (mac : String → String → String) (secret : String)
    (now : Instant) (db : DB) (req : WebhookRequest) : DB × Resp :=
  if !verify_signature mac secret req then
    (db, ⟨403, some "Invalid signature", none⟩)
  else
    match req.payload with
    | none => (db, ⟨400, some "Invalid JSON", none⟩)
    | some payload =>
      if payload.typeField == some "SubscriptionConfirmation" then
        match payload.subscribeURL with
        | some _ => (db, ⟨200, none, none⟩)
        | none => (db, ⟨400, some "Unknown notification type", none⟩)
      else if payload.typeField == some "Notification" then
        match payload.message with
        | none => (db, ⟨400, some "Invalid JSON", none⟩)
        | some msg =>
          let r := process_completed_payment now db msg
          if r.2 then (r.1, ⟨200, none, none⟩)
          else (r.1, ⟨500, some "Failed to process payment", none⟩)
      else (db, ⟨400, some "Unknown notification type", none⟩)

/-! ## Redirect callback and the query endpoint
(BkashCallbackView.get, views.py lines 873-923; PaymentViewSet.query_bkash_payment,
lines 382-436) -/

/-- Where BkashCallbackView.get redirects the browser. -/
inductive CallbackRedirect where
  | successRedirect (pid : String)
  | failureRedirect
  | cancelRedirect
deriving DecidableEq

/-- BkashCallbackView.get (views.py lines 879-923): success only forwards the
user (execution is deferred); failure and cancel set the local Payment status
unconditionally before redirecting. -/
def bkash_callback_get (db : DB) (paymentID statusParam : Option String) :
    DB × CallbackRedirect :=
  match paymentID with
  | none => (db, .failureRedirect)
  | some pid =>
    match findPaymentByPid db pid with
    | none => (db, .failureRedirect)
    | some p =>
      if statusParam == some "success" then (db, .successRedirect pid)
      else if statusParam == some "failure" then
        (updatePayment db { p with status := .failed }, .failureRedirect)
      else if statusParam == some "cancel" then
        (updatePayment db { p with status := .cancelled }, .cancelRedirect)
      else (db, .failureRedirect)

/-- PaymentViewSet.query_bkash_payment (views.py lines 382-436): on a
successful gateway query, overwrite the local status from transactionStatus
(Completed also marks the invoice paid; Initiated resets to Initiated;
anything else becomes Failed). -/
def query_bkash_payment (gw : Gateway) (db : DB) (paymentID : Option String) :
    DB × Resp :=
  match paymentID with
  | none => (db, ⟨400, some "Payment ID is required.", none⟩)
  | some pid =>
    match findPaymentByPid db pid with
    | none => (db, ⟨404, some "Payment not found.", none⟩)
    | some p =>
      let qr := gw.query pid
      if qr.statusCode == some "0000" then
        if qr.transactionStatus == some "Completed" then
          let p2 := { p with
            status := .completed
            transactionId := qr.trxID.getD p.transactionId }
          let db1 := updatePayment db p2
          let db2 :=
            match findInvoice db1 p.invoice with
            | some inv => updateInvoice db1 { inv with isPaid := true }
            | none => db1
          (db2, ⟨200, none, none⟩)
        else if qr.transactionStatus == some "Initiated" then
          (updatePayment db { p with status := .initiated }, ⟨200, none, none⟩)
        else
          (updatePayment db { p with status := .failed }, ⟨200, none, none⟩)
      else (db, ⟨400, some "Failed to query payment status", none⟩)

/-! ## Scheduled monthly invoice generation
(tasks/payments.py generate_monthly_invoices, lines 21-128) -/

/-- The SystemSettings switches the task reads. -/
structure SystemSettingsState where
  autoGenerateInvoices : Bool
  invoiceGenerationDays : ℕ
deriving DecidableEq

/-- How a run of the task ends. -/
inductive TaskOutcome where
  | skippedDisabled
  | skippedOutsideWindow
  | raisedFieldError (field : String)
  | completed (created : ℕ)
deriving DecidableEq

/-- The concrete fields of the Enrollment model
(apps/enrollments/models.py lines 9-22).  Django resolves filter keywords
against this set; an unknown keyword raises FieldError when the queryset is
evaluated. -/
def enrollmentModelFields : List String :=
  ["id", "student", "batch", "start_month", "tuition_fee", "is_active",
   "created_at", "updated_at"]

/-- tasks/payments.py generate_monthly_invoices (lines 21-128): settings gate,
end-of-month window check, then
Enrollment.objects.filter(is_active=True, enrollment_date__lt=next_month).
The Enrollment model has no enrollment_date field (models.py lines 9-22), so
evaluating that queryset (.exists(), line 67) raises FieldError and the task
aborts before creating any invoice.  (Were the filter valid, each loop
iteration would still read enrollment.fee_override, batch.fee_override and
batch.course.tuition_fee — also nonexistent fields — inside the
per-enrollment try, so no invoice could be created either way.) -/
def generate_monthly_invoices (settings : SystemSettingsState) (today : Date)
    (db : DB) : TaskOutcome × DB :=
  if !settings.autoGenerateInvoices then (.skippedDisabled, db)
  else
    let lastDay := daysInMonth today.year today.month
    if settings.invoiceGenerationDays < lastDay - today.day then
      (.skippedOutsideWindow, db)
    else
      if "enrollment_date" ∈ enrollmentModelFields then
        -- unreachable: the membership test is decidably false; each iteration
        -- of the real loop would raise AttributeError on fee_override anyway,
        -- caught per-enrollment, creating nothing
        (.completed 0, db)
      else (.raisedFieldError "enrollment_date", db)

/-! ## The payment gateway client (services/bkash/client.py) -/

/-- The BkashClient instance state: cached token, its expiration, and the
refresh token. -/
structure ClientState where
  token : Option String
  tokenExpiration : Option Instant
  refreshTokenValue : Option String
deriving DecidableEq

/-- One scripted outcome of requests.post: an HTTP response (status plus the
fields of either a token body or a checkout body) or a network failure
(ConnectionError / Timeout). -/
inductive HttpResult where
  | resp (status : ℕ) (idToken : Option String) (refreshVal : Option String)
      (expiresIn : Option ℤ) (gw : GatewayResp)
  | netFail
deriving DecidableEq

/-- The bKash endpoints the client posts to. -/
inductive BkashReq where
  | tokenGrant
  | checkoutCreate
  | checkoutExecute
  | checkoutQuery
deriving DecidableEq

/-- Result of running a client call against a script: the final client state,
the unconsumed script, the ordered log of posts issued, and the returned
value or the surfaced exception. -/
structure ClientOut (α : Type) where
  state : ClientState
  script : List HttpResult
  log : List BkashReq
  result : Except String α

/-- Python truthiness of a nullable string (not self.token): None and the
empty string are falsy. -/
def pyFalsyStr : Option String → Bool
  | none => true
  | some s => s == ""

/-- BkashClient._get_token (client.py lines 50-103): post to token/grant; on
a request failure (network error or raise_for_status) reset all token state
and re-raise; a 2xx body without id_token leaves token None and raises
ValueError; otherwise cache the token, its expiry (now + expires_in, default
3600 s) and the refresh token. -/
def bkash_get_token (now : Instant) (cs : ClientState) (script : List HttpResult) :
    ClientOut Unit :=
  match script with
  | [] => ⟨⟨none, none, none⟩, [], [.tokenGrant], .error "RequestException"⟩
  | .netFail :: rest => ⟨⟨none, none, none⟩, rest, [.tokenGrant], .error "RequestException"⟩
  | .resp status idT refV expIn _ :: rest =>
    if 400 ≤ status then
      ⟨⟨none, none, none⟩, rest, [.tokenGrant], .error "RequestException"⟩
    else
      match idT with
      | none => ⟨{ cs with token := none }, rest, [.tokenGrant], .error "ValueError"⟩
      | some t => ⟨⟨some t, some (now + expIn.getD 3600), refV⟩, rest, [.tokenGrant], .ok ()⟩

/-- The _ensure_token refresh condition (client.py lines 46-47): no token, no
recorded expiration, or expiration within the 5-minute (300 s) safety margin. -/
def tokenNeedsRefresh (now : Instant) (cs : ClientState) : Bool :=
  pyFalsyStr cs.token || cs.tokenExpiration.isNone ||
    (cs.tokenExpiration.getD 0 ≤ now + 300)

/-- BkashClient._ensure_token (client.py lines 41-48). -/
def bkash_ensure_token (now : Instant) (cs : ClientState) (script : List HttpResult) :
    ClientOut Unit :=
  if tokenNeedsRefresh now cs then bkash_get_token now cs script
  else ⟨cs, script, [], .ok ()⟩

/-- The call pattern shared verbatim by create_payment (client.py lines
147-220), execute_payment (222-272) and query_payment (274-325): ensure a
token, post to the endpoint; on a 401 discard the cached token, re-ensure
(fetching a fresh one) and retry the post exactly once; then
raise_for_status, and return the parsed body whatever its statusCode field
says. -/
def postWithAuthRetry (endpoint : BkashReq) (now : Instant) (cs : ClientState)
    (script : List HttpResult) : ClientOut GatewayResp :=
  let o1 := bkash_ensure_token now cs script
  match o1.result with
  | .error e => ⟨o1.state, o1.script, o1.log, .error e⟩
  | .ok () =>
    match o1.script with
    | [] => ⟨o1.state, [], o1.log ++ [endpoint], .error "RequestException"⟩
    | .netFail :: rest => ⟨o1.state, rest, o1.log ++ [endpoint], .error "RequestException"⟩
    | .resp status _ _ _ gw :: rest =>
      if status == 401 then
        let o2 := bkash_ensure_token now { o1.state with token := none } rest
        match o2.result with
        | .error e => ⟨o2.state, o2.script, o1.log ++ [endpoint] ++ o2.log, .error e⟩
        | .ok () =>
          match o2.script with
          | [] => ⟨o2.state, [], o1.log ++ [endpoint] ++ o2.log ++ [endpoint],
              .error "RequestException"⟩
          | .netFail :: rest2 => ⟨o2.state, rest2,
              o1.log ++ [endpoint] ++ o2.log ++ [endpoint], .error "RequestException"⟩
          | .resp st2 _ _ _ gw2 :: rest2 =>
            if 400 ≤ st2 then
              ⟨o2.state, rest2, o1.log ++ [endpoint] ++ o2.log ++ [endpoint],
                .error "HTTPError"⟩
            else
              ⟨o2.state, rest2, o1.log ++ [endpoint] ++ o2.log ++ [endpoint], .ok gw2⟩
      else if 400 ≤ status then
        ⟨o1.state, rest, o1.log ++ [endpoint], .error "HTTPError"⟩
      else
        ⟨o1.state, rest, o1.log ++ [endpoint], .ok gw⟩

/-- BkashClient.create_payment (client.py lines 147-220). -/
def bkash_create_payment (now : Instant) (cs : ClientState)
    (script : List HttpResult) : ClientOut GatewayResp :=
  postWithAuthRetry .checkoutCreate now cs script

/-- BkashClient.execute_payment (client.py lines 222-272). -/
def bkash_execute_payment (now : Instant) (cs : ClientState)
    (script : List HttpResult) : ClientOut GatewayResp :=
  postWithAuthRetry .checkoutExecute now cs script

/-- BkashClient.query_payment (client.py lines 274-325). -/
def bkash_query_payment (now : Instant) (cs : ClientState)
    (script : List HttpResult) : ClientOut GatewayResp :=
  postWithAuthRetry .checkoutQuery now cs script

/-! ## A concrete reconciliation scenario: one provisional invoice, one
gateway payment, the three entry points racing in any order -/

/-- Scenario course: admission 500, monthly tuition 1000. -/
def course0 : Course := ⟨10, 500, 1000⟩

/-- Scenario batch of course0 with tuition 1000. -/
def batch0 : Batch := ⟨20, 10, some 1000⟩

/-- The request day. -/
def today0 : Date := ⟨2026, 10, 12⟩

/-- The wall clock during the scenario. -/
def now0 : Instant := 1760000000

/-- The enrollment start month. -/
def startMonth0 : Date := ⟨2026, 11, 1⟩

/-- The gateway payment id of the scenario's payment attempt. -/
def pid0 : String := "TR0011abcdef"

/-- The intent snapshot stored at initiation (no coupon, no waiver). -/
def ed0 : EnrollmentData := ⟨30, 20, startMonth0, some 1000, none, some false⟩

/-- The provisional invoice created by initiate_payment. -/
def tempInv0 : Invoice := ⟨1, none, startMonth0, 1500, false, none, true, some (.intent ed0)⟩

/-- The Payment row created by initiate_payment, still Initiated. -/
def pay0 : Payment :=
  ⟨1, 1, "ENR-30-20-AAAAAA", 1500, .initiated, some pid0, none, some now0, none⟩

/-- The store right after payment initiation. -/
def dbA : DB := ⟨[course0], [batch0], [], [], [tempInv0], [pay0], 1, 2, 2⟩

/-- The gateway once the customer has paid: execute and query both confirm
Completed with transaction id TRX1. -/
def gw0 : Gateway :=
  ⟨fun _ => ⟨some "0000", some "", some "Completed", some "TRX1", some "01700000000"⟩,
   fun _ => ⟨some "0000", some "", some "Completed", some "TRX1", some "01700000000"⟩⟩

/-- A stand-in for base64-HMAC-SHA256 in the scenario (any function works;
the webhook only compares its outputs). -/
def mac0 (secret body : String) : String := secret ++ ":" ++ body

/-- The webhook app secret of the scenario. -/
def secret0 : String := "app-secret-0"

/-- The gateway's Completed notification for pid0. -/
def msg0 : NotificationMsg := ⟨some pid0, some "ENR-30-20-AAAAAA", some "Completed", some "TRX1"⟩

/-- The correctly signed webhook request delivering msg0. -/
def req0 : WebhookRequest :=
  ⟨some (mac0 secret0 "notif-body-0"), "notif-body-0",
   some ⟨some "Notification", some msg0, none⟩⟩

/-- The three reconciliation entry points, each invoked with the scenario's
fixed request data. -/
inductive EntryCall where
  | explicitComplete
  | recoveryVerify
  | webhookNotify
deriving DecidableEq

/-- One entry-point invocation, projected to its effect on the store. -/
def entryStep : EntryCall → DB → DB
  | .explicitComplete, db =>
    (complete_with_payment gw0 now0 today0 db (some ed0) (some pid0) (some 1)).1
  | .recoveryVerify, db =>
    (verify_and_complete_payment gw0 now0 today0 db (some ed0) (some pid0) (some 1)).1
  | .webhookNotify, db =>
    (webhook_post mac0 secret0 now0 db req0).1

/-- A sequence of entry-point invocations. -/
def runEntries : List EntryCall → DB → DB
  | [], db => db
  | op :: rest, db => runEntries rest (entryStep op db)

/-- The materialized store: enrollment plus its (first, next) invoices exist,
the provisional invoice is gone, the payment is re-pointed. -/
def dbB : DB := entryStep .explicitComplete dbA

/-- The webhook-first store: payment Completed and provisional invoice marked
paid, but no enrollment (the webhook's internal completion call always dies
with TypeError). -/
def dbC : DB := entryStep .webhookNotify dbA

/-- Active enrollments of a (student, batch) pair. -/
def activeEnrollmentsFor (db : DB) (s b : ℕ) : ℕ :=
  (db.enrollments.filter (fun e => e.student == s && e.batch == b && e.isActive)).length

/-- The invoices attached to an enrollment. -/
def invoicesFor (db : DB) (e : ℕ) : List Invoice :=
  db.invoices.filter (fun i => i.enrollment == some e)

/-! ## Scenario variants for the materialization claims -/

/-- A FIRST_MONTH_WAIVER coupon, active and unexpired during the scenario. -/
def couponW : Coupon := ⟨40, "WAIVE", ["FIRST_MONTH"], none, now0 + 1000, true⟩

/-- Intent snapshot carrying the waiver coupon and flag (recurring tuition t). -/
def edW (t : Money) : EnrollmentData := ⟨30, 20, startMonth0, some t, some "WAIVE", some true⟩

/-- Provisional invoice of the waiver scenario (admission 500 plus second-month t). -/
def tempInvW (t : Money) : Invoice :=
  ⟨1, none, startMonth0, t + 500, false, some 40, true, some (.intent (edW t))⟩

/-- Initiated payment of the waiver scenario. -/
def payW (t : Money) : Payment :=
  ⟨1, 1, "ENR-30-20-BBBBBB", t + 500, .initiated, some pid0, none, some now0, none⟩

/-- Store after initiation, waiver scenario. -/
def dbW (t : Money) : DB := ⟨[course0], [batch0], [couponW], [], [tempInvW t], [payW t], 1, 2, 2⟩

/-- Intent snapshot without any coupon (recurring tuition t). -/
def edN (t : Money) : EnrollmentData := ⟨30, 20, startMonth0, some t, none, some false⟩

/-- Provisional invoice of the no-coupon scenario. -/
def tempInvN (t : Money) : Invoice :=
  ⟨1, none, startMonth0, t + 500, false, none, true, some (.intent (edN t))⟩

/-- Initiated payment of the no-coupon scenario. -/
def payN (t : Money) : Payment :=
  ⟨1, 1, "ENR-30-20-BBBBBB", t + 500, .initiated, some pid0, none, some now0, none⟩

/-- Store after initiation, no-coupon scenario. -/
def dbN (t : Money) : DB := ⟨[course0], [batch0], [], [], [tempInvN t], [payN t], 1, 2, 2⟩

/-- Store with a provisional invoice but no Payment row (for a completion
request that omits the gateway payment id). -/
def dbNP (t : Money) : DB := ⟨[course0], [batch0], [], [], [tempInvN t], [], 1, 2, 1⟩

/-! ## Claim theorems -/

/-- C1 counterexample: the first complete_with_payment call materializes the
enrollment (201, enrollment id 1); the repeated call — the provisional
invoice now being deleted — answers 400 "Invalid temp invoice ID" with no
enrollment in the body, instead of short-circuiting to the existing
enrollment as the claim states. -/
theorem C1_repeat_complete_errors :
    (complete_with_payment gw0 now0 today0 dbA (some ed0) (some pid0) (some 1)).2.1 =
      ⟨201, none, some 1⟩ ∧
    complete_with_payment gw0 now0 today0
      (complete_with_payment gw0 now0 today0 dbA (some ed0) (some pid0) (some 1)).1
      (some ed0) (some pid0) (some 1) =
      ((complete_with_payment gw0 now0 today0 dbA (some ed0) (some pid0) (some 1)).1,
       ⟨400, some "Invalid temp invoice ID", none⟩, []) := by
  decide

/-- Every entry-point invocation keeps the scenario store within the three
reachable snapshots: initial, materialized, webhook-first. -/
theorem entryStep_closure (op : EntryCall) (db : DB)
    (h : db = dbA ∨ db = dbB ∨ db = dbC) :
    entryStep op db = dbA ∨ entryStep op db = dbB ∨ entryStep op db = dbC := by
  rcases h with h | h | h <;> subst h <;> cases op <;> decide

/-- Any sequence of entry-point invocations stays within the three snapshots. -/
theorem runEntries_closure (ops : List EntryCall) :
    ∀ db, (db = dbA ∨ db = dbB ∨ db = dbC) →
      runEntries ops db = dbA ∨ runEntries ops db = dbB ∨ runEntries ops db = dbC := by
  induction ops with
  | nil => intro db h; exact h
  | cons op rest ih => intro db h; exact ih _ (entryStep_closure op db h)

/-- C1 (amended): for any sequence of reconciliation entry-point invocations
(explicit completion, recovery verify, webhook) on the same gateway payment
id, materialization happens at most once — at most one active enrollment for
the (student, batch) pair and at most the (first, next) invoice pair exist,
and any state holding an enrollment is exactly the materialized snapshot.
After materialization, verify_and_complete_payment short-circuits to 200 with
the existing enrollment and the webhook acknowledges without reprocessing,
both leaving the store unchanged; but a repeated complete_with_payment call
fails with 400 "Invalid temp invoice ID" instead of returning the existing
enrollment (it still changes nothing). -/
theorem C1_materialization_at_most_once (ops : List EntryCall) :
    (runEntries ops dbA = dbA ∨ runEntries ops dbA = dbB ∨ runEntries ops dbA = dbC) ∧
    activeEnrollmentsFor (runEntries ops dbA) 30 20 ≤ 1 ∧
    (invoicesFor (runEntries ops dbA) 1).length ≤ 2 ∧
    ((runEntries ops dbA).enrollments ≠ [] → runEntries ops dbA = dbB) ∧
    verify_and_complete_payment gw0 now0 today0 dbB (some ed0) (some pid0) (some 1) =
      (dbB, ⟨200, none, some 1⟩, []) ∧
    webhook_post mac0 secret0 now0 dbB req0 = (dbB, ⟨200, none, none⟩) ∧
    complete_with_payment gw0 now0 today0 dbB (some ed0) (some pid0) (some 1) =
      (dbB, ⟨400, some "Invalid temp invoice ID", none⟩, []) := by
  have hmem := runEntries_closure ops dbA (Or.inl rfl)
  refine ⟨hmem, ?_, ?_, ?_, by decide, by decide, by decide⟩
  · rcases hmem with h | h | h <;> rw [h] <;> decide
  · rcases hmem with h | h | h <;> rw [h] <;> decide
  · rcases hmem with h | h | h <;> rw [h] <;> decide

/-- C1 witness: a concrete two-invocation run materializes exactly once. -/
theorem C1_materialization_at_most_once_witness :
    runEntries [EntryCall.explicitComplete, EntryCall.webhookNotify] dbA = dbB ∧
    activeEnrollmentsFor
      (runEntries [EntryCall.explicitComplete, EntryCall.webhookNotify] dbA) 30 20 ≤ 1 := by
  have h := C1_materialization_at_most_once [EntryCall.explicitComplete, EntryCall.webhookNotify]
  exact ⟨h.2.2.2.1 (by decide), h.2.1⟩

/-- C2: with FIRST_MONTH_WAIVER, materialization with a verified payment
creates exactly three invoices — first month amount 0 and paid, second month
at the recurring tuition fee t and paid, third month at t and unpaid — and
re-points the Payment to the second-month invoice (id 3); without the waiver
only the first invoice is paid, no third invoice exists, and the Payment
points at the first invoice (id 2). -/
theorem C2_waiver_shifts_paid_frontier (t : Money) :
    complete_with_payment gw0 now0 today0 (dbW t) (some (edW t)) (some pid0) (some 1) =
    (⟨[course0], [batch0], [couponW],
      [⟨1, 30, 20, startMonth0, some t, true⟩],
      [⟨2, some 1, startMonth0, 0, true, some 40, false, none⟩,
       ⟨3, some 1, ⟨2026, 12, 1⟩, t, true, some 40, false, none⟩,
       ⟨4, some 1, ⟨2027, 1, 1⟩, t, false, none, false, none⟩],
      [⟨1, 3, "TRX1", t + 500, .completed, some pid0, none, some now0, some now0⟩],
      2, 5, 2⟩,
     ⟨201, none, some 1⟩, [.executeCall pid0]) ∧
    complete_with_payment gw0 now0 today0 (dbN t) (some (edN t)) (some pid0) (some 1) =
    (⟨[course0], [batch0], [],
      [⟨1, 30, 20, startMonth0, some t, true⟩],
      [⟨2, some 1, startMonth0, t, true, none, false, none⟩,
       ⟨3, some 1, ⟨2026, 12, 1⟩, t, false, none, false, none⟩],
      [⟨1, 2, "TRX1", t + 500, .completed, some pid0, none, some now0, some now0⟩],
      2, 4, 2⟩,
     ⟨201, none, some 1⟩, [.executeCall pid0]) := by
  constructor <;>
  · simp [complete_with_payment, dbW, edW, tempInvW, payW, dbN, edN, tempInvN, payN,
      couponW, findInvoice, findPaymentByPid, serializerCreateEnrollment,
      activeEnrollmentExists, enrollmentSave, recurringFee, couponRecheck, createInvoice,
      invoiceConflict, deleteInvoice, updatePayment, findBatch, findCourse, effectiveTuition,
      Date.lt, Date.monthStart, Date.nextMonth, startMonth0, today0, course0, batch0, pid0,
      gw0, now0, findCoupon, Coupon.id, List.any, List.find?, List.filter, List.map,
      List.append]

/-- C10: a complete_with_payment request supplying the provisional invoice
and intent data but no gateway payment id performs no gateway call (empty
call log), runs no payment-status check, and still creates the enrollment,
the paid first-month invoice and the following-month invoice, deleting the
provisional invoice. -/
theorem C10_complete_without_payment_id (t : Money) :
    complete_with_payment gw0 now0 today0 (dbNP t) (some (edN t)) none (some 1) =
    (⟨[course0], [batch0], [],
      [⟨1, 30, 20, startMonth0, some t, true⟩],
      [⟨2, some 1, startMonth0, t, true, none, false, none⟩,
       ⟨3, some 1, ⟨2026, 12, 1⟩, t, false, none, false, none⟩],
      [], 2, 4, 1⟩,
     ⟨201, none, some 1⟩, []) := by
  simp [complete_with_payment, dbNP, edN, tempInvN, findInvoice, serializerCreateEnrollment,
    activeEnrollmentExists, enrollmentSave, recurringFee, couponRecheck, createInvoice,
    invoiceConflict, deleteInvoice, updatePayment, findBatch, findCourse, effectiveTuition,
    Date.lt, Date.monthStart, Date.nextMonth, startMonth0, today0, course0, batch0, pid0,
    findCoupon, List.any, List.find?, List.filter, List.map, List.append]

/-- A gateway whose query answers Initiated (for the status-downgrade claims). -/
def gwInit : Gateway :=
  ⟨fun _ => ⟨some "0000", some "", some "Initiated", none, none⟩,
   fun _ => ⟨some "0000", some "", some "Initiated", none, none⟩⟩

/-- C3 counterexample: in the materialized store the payment is Completed,
yet a redirect callback with status failure downgrades it to Failed, one with
cancel downgrades it to Cancelled, and a gateway query answering Initiated
resets it to Initiated — Completed is not sticky. -/
theorem C3_completed_downgraded :
    (findPaymentByPid dbB pid0).map Payment.status = some .completed ∧
    (bkash_callback_get dbB (some pid0) (some "failure")).1.payments.map Payment.status =
      [.failed] ∧
    (bkash_callback_get dbB (some pid0) (some "cancel")).1.payments.map Payment.status =
      [.cancelled] ∧
    (query_bkash_payment gwInit dbB (some pid0)).1.payments.map Payment.status =
      [.initiated] := by
  decide

/-- C3 (amended): the redirect callback never changes state on success (it
only forwards the user), but on failure and cancel it sets the local status
to Failed / Cancelled unconditionally — regardless of the current status,
Completed included; likewise a successful gateway query whose
transactionStatus is Initiated overwrites the local status with Initiated.
Payment status is therefore not monotonic and Completed is not sticky. -/
theorem C3_status_overwrite (db : DB) (pid : String) (p : Payment) (gw : Gateway)
    (hp : findPaymentByPid db pid = some p) :
    bkash_callback_get db (some pid) (some "success") = (db, .successRedirect pid) ∧
    bkash_callback_get db (some pid) (some "failure") =
      (updatePayment db { p with status := .failed }, .failureRedirect) ∧
    bkash_callback_get db (some pid) (some "cancel") =
      (updatePayment db { p with status := .cancelled }, .cancelRedirect) ∧
    ((gw.query pid).statusCode = some "0000" →
      (gw.query pid).transactionStatus = some "Initiated" →
      query_bkash_payment gw db (some pid) =
        (updatePayment db { p with status := .initiated }, ⟨200, none, none⟩)) := by
  refine ⟨?_, ?_, ?_, fun h1 h2 => ?_⟩ <;>
    simp [bkash_callback_get, query_bkash_payment, hp, *]

/-- C3 witness: the amended behavior at the concrete materialized store. -/
theorem C3_status_overwrite_witness :
    bkash_callback_get dbB (some pid0) (some "failure") =
      (updatePayment dbB
        { (⟨1, 2, "TRX1", 1500, .completed, some pid0, none, some now0, some now0⟩ : Payment)
          with status := .failed }, .failureRedirect) := by
  exact (C3_status_overwrite dbB pid0
    ⟨1, 2, "TRX1", 1500, .completed, some pid0, none, some now0, some now0⟩
    gwInit (by decide)).2.1

/-- A coupon that waives admission and discounts tuition 60 percent. -/
def couponZ : Coupon := ⟨41, "SUBCENT", ["ADMISSION", "TUITION"], some 60, now0 + 1000, true⟩

/-- C4 counterexample: with admission waived and tuition 0.01 discounted 60
percent, the discounted total 0.004 is positive — so the floor does not fire
— and the payment-initiation quantization rounds it to 0.00: the total
payable charged at the gateway is zero.  (The fee-quote endpoint, which does
not quantize, reports the positive total 0.004.) -/
theorem C4_quantized_total_zero :
    initiatePaymentTotal [couponZ] now0 (some (1/100)) 1000 500 (some "SUBCENT") = .ok 0 ∧
    initiateQuote [couponZ] now0 (some (1/100)) 1000 500 (some "SUBCENT") =
      .ok ⟨0, 1/250, 1/250, 1/250, false, true⟩ := by
  constructor <;>
  · simp [initiatePaymentTotal, initiateQuote, applyCoupon, findCoupon, couponZ, now0,
      effectiveTuition, decimalTruthy, bind, Except.bind]
    norm_num [quantize2, roundHalfEven, Quote.mk.injEq]

/-- Rounding half-to-even never takes a nonnegative rational below zero. -/
theorem roundHalfEven_nonneg (q : ℚ) (h : 0 ≤ q) : 0 ≤ roundHalfEven q := by
  have hf : (0 : ℤ) ≤ ⌊q⌋ := Int.floor_nonneg.mpr h
  unfold roundHalfEven
  dsimp only
  split
  · exact hf
  · split
    · omega
    · split <;> omega

/-- Two-decimal quantization preserves nonnegativity. -/
theorem quantize2_nonneg (q : ℚ) (h : 0 ≤ q) : 0 ≤ quantize2 q := by
  have := roundHalfEven_nonneg (q * 100) (by positivity)
  unfold quantize2
  positivity

/-- Quantizing the minimum charge 1.00 leaves it unchanged. -/
theorem quantize2_one : quantize2 1 = 1 := by
  norm_num [quantize2, roundHalfEven]

/-- C4 (amended): wherever the total payable is computed, a post-coupon sum
of admission and tuition at or below zero is forced to the minimum charge
1.00; the fee-quote total is always strictly positive; the
payment-initiation total additionally rounds the floored total to two
decimals half-to-even, so it is never negative and equals that quantization
— which can be 0.00 when the positive total is below half a cent. -/
theorem C4_minimum_charge_floor
    (coupons : List Coupon) (now : Instant) (bt : Option Money) (cm ca : Money)
    (code : Option String) (a t : Money) (w : Bool) (c : Option Coupon)
    (h : applyCoupon coupons now code ca (effectiveTuition bt cm) = .ok (a, t, w, c)) :
    (a + t ≤ 0 →
      (∃ q, initiateQuote coupons now bt cm ca code = .ok q ∧ q.totalAmount = 1) ∧
      initiatePaymentTotal coupons now bt cm ca code = .ok 1) ∧
    (∀ q, initiateQuote coupons now bt cm ca code = .ok q → 0 < q.totalAmount) ∧
    (∀ x, initiatePaymentTotal coupons now bt cm ca code = .ok x →
      0 ≤ x ∧ x = quantize2 (if a + t ≤ 0 then 1 else a + t)) := by
  have hQ : initiateQuote coupons now bt cm ca code =
      .ok ⟨a, if w then 0 else t, if a + t ≤ 0 then 1 else a + t,
           if 0 < t then t else effectiveTuition bt cm, w, c.isSome⟩ := by
    simp [initiateQuote, h, bind, Except.bind]
  have hP : initiatePaymentTotal coupons now bt cm ca code =
      .ok (quantize2 (if a + t ≤ 0 then 1 else a + t)) := by
    simp [initiatePaymentTotal, h, bind, Except.bind]
  refine ⟨fun hle => ⟨⟨_, hQ, ?_⟩, ?_⟩, fun q hq => ?_, fun x hx => ?_⟩
  · simp [hle]
  · rw [hP, if_pos hle, quantize2_one]
  · rw [hQ] at hq
    injection hq with hq
    subst hq
    dsimp only
    by_cases h0 : a + t ≤ 0
    · rw [if_pos h0]; norm_num
    · rw [if_neg h0]; linarith [not_le.mp h0]
  · rw [hP] at hx
    injection hx with hx
    subst hx
    refine ⟨quantize2_nonneg _ ?_, rfl⟩
    by_cases h0 : a + t ≤ 0
    · rw [if_pos h0]; norm_num
    · rw [if_neg h0]; linarith [not_le.mp h0]

/-- C4 witness: everything waived charges exactly the 1.00 minimum. -/
theorem C4_minimum_charge_floor_witness :
    initiatePaymentTotal [] 0 none 0 0 none = .ok 1 := by
  have h := C4_minimum_charge_floor [] 0 none 0 0 none 0 0 false none rfl
  exact (h.1 (by norm_num)).2

/-- An inactive but unexpired admission-waiver coupon. -/
def couponI : Coupon := ⟨42, "INACTIVE", ["ADMISSION"], none, now0 + 1000, false⟩

/-- C5 counterexample: a coupon with is_active false and a future expiry is
accepted by the fee quote and its admission waiver is applied (admission
drops from 500 to 0, coupon_applied true) — no CouponInvalid is raised. -/
theorem C5_inactive_coupon_accepted :
    couponI.isActive = false ∧ ¬(couponI.expiresAt < now0) ∧
    initiateQuote [couponI] now0 (some 1000) 1000 500 (some "INACTIVE") =
      .ok ⟨0, 1000, 1000, 1000, false, true⟩ := by
  refine ⟨rfl, by decide, ?_⟩
  simp [initiateQuote, applyCoupon, findCoupon, couponI, now0, effectiveTuition,
    decimalTruthy, bind, Except.bind]

/-- C5 (amended): during coupon resolution an unknown code yields
CouponNotFound (404 on the validate endpoint); a coupon whose expires_at lies
before the current time yields CouponInvalid (400); but the is_active flag is
never consulted: any found, unexpired coupon is accepted and its discounts
applied, active or not. -/
theorem C5_coupon_resolution (coupons : List Coupon) (now : Instant) (code : String)
    (a t : Money) (hcode : code ≠ "") :
    (findCoupon coupons code = none →
      applyCoupon coupons now (some code) a t = .error .notFound ∧
      coupon_validate coupons now code = .notFound404) ∧
    (∀ c, findCoupon coupons code = some c → c.expiresAt < now →
      applyCoupon coupons now (some code) a t = .error .expired ∧
      coupon_validate coupons now code = .expired400) ∧
    (∀ c, findCoupon coupons code = some c → ¬(c.expiresAt < now) →
      applyCoupon coupons now (some code) a t =
        .ok (if "ADMISSION" ∈ c.discountTypes then 0 else a,
             if "TUITION" ∈ c.discountTypes ∧ decimalTruthy c.discountValue then
               t - t * c.discountValue.getD 0 / 100 else t,
             decide ("FIRST_MONTH" ∈ c.discountTypes), some c) ∧
      coupon_validate coupons now code = .proceeds c) := by
  have hbe : (code == "") = false := beq_eq_false_iff_ne.mpr hcode
  refine ⟨fun hf => ?_, fun c hf hexp => ?_, fun c hf hexp => ?_⟩
  · exact ⟨by simp [applyCoupon, hbe, hf], by simp [coupon_validate, hf]⟩
  · exact ⟨by simp [applyCoupon, hbe, hf, hexp], by simp [coupon_validate, hf, hexp]⟩
  · exact ⟨by simp [applyCoupon, hbe, hf, hexp], by simp [coupon_validate, hf, hexp]⟩

/-- C5 witness: an unknown code is CouponNotFound on both paths. -/
theorem C5_coupon_resolution_witness :
    applyCoupon [] 0 (some "X") 0 0 = .error .notFound ∧
    coupon_validate [] 0 "X" = .notFound404 := by
  exact (C5_coupon_resolution [] 0 "X" 0 0 (by decide)).1 rfl

/-- A store with one active enrollment (stored recurring fee 1000) and no
invoice yet for the coming month. -/
def dbC6 : DB :=
  ⟨[course0], [batch0], [], [⟨1, 30, 20, startMonth0, some 1000, true⟩], [], [], 2, 1, 1⟩

/-- C6: on a day within the generation window, with auto-generation enabled,
one active enrollment and no (enrollment, next-month) invoice, the scheduled
task raises FieldError — its queryset filters on enrollment_date, which is
not a field of the Enrollment model — and creates nothing, instead of
creating the next-month invoice at the stored recurring fee as the claim
states.  (Its fee chain reads fee_override and course.tuition_fee, which do
not exist either.) -/
theorem C6_generate_monthly_invoices_field_error :
    generate_monthly_invoices ⟨true, 3⟩ ⟨2026, 10, 29⟩ dbC6 =
      (.raisedFieldError "enrollment_date", dbC6) ∧
    invoiceConflict dbC6 1 ⟨2026, 11, 1⟩ = false := by
  decide

/-- The enrollment-lifecycle operations that reach Enrollment.save. -/
inductive EnrollOp where
  | createOp (d : EnrollmentData)
  | unenrollOp (i : ℕ)
  | reactivateOp (i : ℕ)

/-- The enrollments table plus the next primary key. -/
structure EnrollStore where
  rows : List Enrollment
  nextId : ℕ

/-- One lifecycle operation. -/
def enrollStep (today : Date) (batches : List Batch) : EnrollOp → EnrollStore → EnrollStore
  | .createOp d, st =>
    match serializerCreateEnrollment today batches st.rows d st.nextId with
    | .ok (rows2, _) => ⟨rows2, st.nextId + 1⟩
    | .error _ => st
  | .unenrollOp i, st =>
    ⟨st.rows.map (fun e => if e.id == i && e.isActive then { e with isActive := false } else e),
     st.nextId⟩
  | .reactivateOp i, st =>
    match st.rows.find? (fun e => e.id == i) with
    | none => st
    | some e =>
      match enrollmentSave batches st.rows { e with isActive := true } with
      | .ok rows2 => ⟨rows2, st.nextId⟩
      | .error _ => st

/-- A sequence of lifecycle operations. -/
def runEnrollOps (today : Date) (batches : List Batch) :
    List EnrollOp → EnrollStore → EnrollStore
  | [], st => st
  | op :: rest, st => runEnrollOps today batches rest (enrollStep today batches op st)

/-- The store invariant: two active rows of one student in one course are the
same row, and all primary keys are below the counter. -/
def enrollInv (batches : List Batch) (st : EnrollStore) : Prop :=
  (∀ e1 ∈ st.rows, ∀ e2 ∈ st.rows, e1.isActive = true → e2.isActive = true →
    e1.student = e2.student →
    courseOfBatch batches e1.batch = courseOfBatch batches e2.batch → e1 = e2) ∧
  (∀ e ∈ st.rows, e.id < st.nextId)

theorem enrollStep_inv (today : Date) (batches : List Batch) (op : EnrollOp)
    (st : EnrollStore) (h : enrollInv batches st) :
    enrollInv batches (enrollStep today batches op st) := by
  obtain ⟨hJ, hFresh⟩ := h
  cases op with
  | createOp d =>
    simp only [enrollStep]
    cases hs : serializerCreateEnrollment today batches st.rows d st.nextId with
    | error _ => exact ⟨hJ, hFresh⟩
    | ok pr =>
      obtain ⟨rows2, e⟩ := pr
      unfold serializerCreateEnrollment at hs
      split at hs
      · cases hs
      · split at hs
        · cases hs
        · dsimp only at hs
          cases hsave : enrollmentSave batches st.rows
              ⟨st.nextId, d.student, d.batch, d.startMonth, d.tuitionFee, true⟩ with
          | error msg => rw [hsave] at hs; cases hs
          | ok es2 =>
            rw [hsave] at hs
            injection hs with hs
            injection hs with hs1 hs2
            subst hs1
            unfold enrollmentSave at hsave
            split at hsave
            · cases hsave
            · rename_i hguard
              split at hsave
              · rename_i hidmem
                exfalso
                obtain ⟨x, hx, hxid⟩ := List.any_eq_true.mp hidmem
                have := hFresh x hx
                simp only [beq_iff_eq] at hxid
                omega
              · injection hsave with hsave
                subst hsave
                simp only [Bool.and_eq_true, not_and] at hguard
                have hany : st.rows.any (fun x =>
                    x.student == d.student &&
                    courseOfBatch batches x.batch == courseOfBatch batches d.batch &&
                    x.isActive && x.id != st.nextId) = false := by
                  have := hguard (by simp)
                  exact Bool.not_eq_true _ ▸ (Bool.eq_false_iff.mpr this)
                have hnone := List.any_eq_false.mp hany
                constructor
                · intro e1 h1 e2 h2 ha1 ha2 hstud hcourse
                  rcases List.mem_append.mp h1 with h1o | h1n <;>
                    rcases List.mem_append.mp h2 with h2o | h2n
                  · exact hJ e1 h1o e2 h2o ha1 ha2 hstud hcourse
                  · exfalso
                    have h2e : e2 = ⟨st.nextId, d.student, d.batch, d.startMonth,
                        d.tuitionFee, true⟩ := by simpa using h2n
                    apply hnone e1 h1o
                    have hid : e1.id ≠ st.nextId := by
                      have := hFresh e1 h1o; omega
                    subst h2e
                    simp_all
                  · exfalso
                    have h1e : e1 = ⟨st.nextId, d.student, d.batch, d.startMonth,
                        d.tuitionFee, true⟩ := by simpa using h1n
                    apply hnone e2 h2o
                    have hid : e2.id ≠ st.nextId := by
                      have := hFresh e2 h2o; omega
                    subst h1e
                    simp_all
                  · have h1e : e1 = ⟨st.nextId, d.student, d.batch, d.startMonth,
                        d.tuitionFee, true⟩ := by simpa using h1n
                    have h2e : e2 = ⟨st.nextId, d.student, d.batch, d.startMonth,
                        d.tuitionFee, true⟩ := by simpa using h2n
                    rw [h1e, h2e]
                · intro x hx
                  rcases List.mem_append.mp hx with hxo | hxn
                  · have := hFresh x hxo; simp only []; omega
                  · have : x = ⟨st.nextId, d.student, d.batch, d.startMonth,
                        d.tuitionFee, true⟩ := by simpa using hxn
                    subst this; simp
  | unenrollOp i =>
    simp only [enrollStep]
    constructor
    · intro e1 h1 e2 h2 ha1 ha2 hstud hcourse
      obtain ⟨x1, hx1, he1⟩ := List.mem_map.mp h1
      obtain ⟨x2, hx2, he2⟩ := List.mem_map.mp h2
      by_cases hc1 : (x1.id == i && x1.isActive) = true
      · rw [if_pos hc1] at he1
        rw [← he1] at ha1
        simp at ha1
      · rw [if_neg hc1] at he1
        by_cases hc2 : (x2.id == i && x2.isActive) = true
        · rw [if_pos hc2] at he2
          rw [← he2] at ha2
          simp at ha2
        · rw [if_neg hc2] at he2
          subst he1; subst he2
          exact hJ x1 hx1 x2 hx2 ha1 ha2 hstud hcourse
    · intro x hx
      obtain ⟨x0, hx0, hfx⟩ := List.mem_map.mp hx
      have := hFresh x0 hx0
      by_cases hc : (x0.id == i && x0.isActive) = true
      · rw [if_pos hc] at hfx; rw [← hfx]; simpa using this
      · rw [if_neg hc] at hfx; rw [← hfx]; simpa using this
  | reactivateOp i =>
    simp only [enrollStep]
    cases hf : st.rows.find? (fun e => e.id == i) with
    | none => exact ⟨hJ, hFresh⟩
    | some e =>
      have hemem : e ∈ st.rows := List.mem_of_find?_eq_some hf
      dsimp only
      cases hsave : enrollmentSave batches st.rows { e with isActive := true } with
      | error msg => exact ⟨hJ, hFresh⟩
      | ok rows2 =>
        unfold enrollmentSave at hsave
        split at hsave
        · cases hsave
        · rename_i hguard
          split at hsave
          · injection hsave with hsave
            subst hsave
            simp only [Bool.and_eq_true, not_and] at hguard
            have hany : st.rows.any (fun x =>
                x.student == e.student &&
                courseOfBatch batches x.batch == courseOfBatch batches e.batch &&
                x.isActive && x.id != e.id) = false := by
              have := hguard (by simp)
              exact Bool.not_eq_true _ ▸ (Bool.eq_false_iff.mpr this)
            have hnone := List.any_eq_false.mp hany
            constructor
            · intro e1 h1 e2 h2 ha1 ha2 hstud hcourse
              obtain ⟨x1, hx1, he1⟩ := List.mem_map.mp h1
              obtain ⟨x2, hx2, he2⟩ := List.mem_map.mp h2
              by_cases hc1 : (x1.id == e.id) = true
              · rw [if_pos hc1] at he1
                by_cases hc2 : (x2.id == e.id) = true
                · rw [if_pos hc2] at he2
                  rw [← he1, ← he2]
                · rw [if_neg hc2] at he2
                  exfalso
                  apply hnone x2 hx2
                  subst he2
                  have hid : e1.student = e.student ∧
                      courseOfBatch batches e1.batch = courseOfBatch batches e.batch := by
                    rw [← he1]; exact ⟨rfl, rfl⟩
                  simp only [Bool.and_eq_true, beq_iff_eq, bne_iff_ne] at hc2 ⊢
                  refine ⟨⟨⟨?_, ?_⟩, ha2⟩, by simpa using hc2⟩
                  · rw [← hstud, hid.1]
                  · rw [← hcourse, hid.2]
              · rw [if_neg hc1] at he1
                by_cases hc2 : (x2.id == e.id) = true
                · rw [if_pos hc2] at he2
                  exfalso
                  apply hnone x1 hx1
                  subst he1
                  have hid : e2.student = e.student ∧
                      courseOfBatch batches e2.batch = courseOfBatch batches e.batch := by
                    rw [← he2]; exact ⟨rfl, rfl⟩
                  simp only [Bool.and_eq_true, beq_iff_eq, bne_iff_ne] at hc1 ⊢
                  refine ⟨⟨⟨?_, ?_⟩, ha1⟩, by simpa using hc1⟩
                  · rw [hstud, hid.1]
                  · rw [hcourse, hid.2]
                · rw [if_neg hc2] at he2
                  subst he1; subst he2
                  exact hJ x1 hx1 x2 hx2 ha1 ha2 hstud hcourse
            · intro x hx
              obtain ⟨x0, hx0, hfx⟩ := List.mem_map.mp hx
              by_cases hc : (x0.id == e.id) = true
              · rw [if_pos hc] at hfx
                rw [← hfx]
                simpa using hFresh e hemem
              · rw [if_neg hc] at hfx
                rw [← hfx]
                simpa using hFresh x0 hx0
          · rename_i hidmem
            exfalso
            apply hidmem
            exact List.any_eq_true.mpr ⟨e, hemem, by simp⟩

theorem runEnrollOps_inv (today : Date) (batches : List Batch) (ops : List EnrollOp) :
    ∀ st, enrollInv batches st → enrollInv batches (runEnrollOps today batches ops st) := by
  induction ops with
  | nil => intro st h; exact h
  | cons op rest ih =>
    intro st h
    exact ih _ (enrollStep_inv today batches op st h)

/-- C7: in every store reachable by enrollment lifecycle operations (guarded
creation, unenrollment, reactivation), two active enrollments of one student
in the same batch — or in any two batches of the same course — are the same
row; a creation attempt against an existing active (student, batch) row fails
with the already-enrolled serializer error, one against an active same-course
row fails with the model guard's AlreadyEnrolled ValidationError, and a
failed creation leaves the store unchanged. -/
theorem C7_active_enrollment_uniqueness (today : Date) (batches : List Batch)
    (ops : List EnrollOp) :
    (∀ e1 ∈ (runEnrollOps today batches ops ⟨[], 1⟩).rows,
     ∀ e2 ∈ (runEnrollOps today batches ops ⟨[], 1⟩).rows,
       e1.isActive = true → e2.isActive = true → e1.student = e2.student →
       (e1.batch = e2.batch ∨
        courseOfBatch batches e1.batch = courseOfBatch batches e2.batch) → e1 = e2) ∧
    (∀ rows d n, activeEnrollmentExists rows d.student d.batch = true →
       Date.lt d.startMonth today.monthStart = false →
       serializerCreateEnrollment today batches rows d n =
         .error (.invalid "This student is already enrolled in this batch")) ∧
    (∀ rows (d : EnrollmentData) n, activeEnrollmentExists rows d.student d.batch = false →
       Date.lt d.startMonth today.monthStart = false →
       (∃ x ∈ rows, x.isActive = true ∧ x.student = d.student ∧
         courseOfBatch batches x.batch = courseOfBatch batches d.batch ∧ x.id ≠ n) →
       serializerCreateEnrollment today batches rows d n =
         .error (.saveGuard "AlreadyEnrolled")) ∧
    (∀ d st msg, serializerCreateEnrollment today batches st.rows d st.nextId = .error msg →
       enrollStep today batches (.createOp d) st = st) := by
  have hinv := runEnrollOps_inv today batches ops ⟨[], 1⟩ ⟨by simp, by simp⟩
  refine ⟨?_, ?_, ?_, ?_⟩
  · intro e1 h1 e2 h2 ha1 ha2 hstud hbc
    rcases hbc with hb | hc
    · exact hinv.1 e1 h1 e2 h2 ha1 ha2 hstud (by rw [hb])
    · exact hinv.1 e1 h1 e2 h2 ha1 ha2 hstud hc
  · intro rows d n hex hdate
    simp [serializerCreateEnrollment, hex, hdate]
  · intro rows d n hex hdate hwit
    obtain ⟨x, hx, hxa, hxs, hxc, hxid⟩ := hwit
    have hany : rows.any (fun y => y.student == d.student &&
        courseOfBatch batches y.batch == courseOfBatch batches d.batch &&
        y.isActive && y.id != n) = true :=
      List.any_eq_true.mpr ⟨x, hx, by simp [hxa, hxs, hxc, hxid, bne_iff_ne]⟩
    simp [serializerCreateEnrollment, enrollmentSave, hex, hdate, hany]
  · intro d st msg herr
    simp [enrollStep, herr]

/-- C7 witness: a duplicate (student, batch) creation attempt rejected. -/
theorem C7_active_enrollment_uniqueness_witness :
    serializerCreateEnrollment today0 [batch0] [⟨1, 30, 20, startMonth0, some 1000, true⟩]
        ed0 2 = .error (.invalid "This student is already enrolled in this batch") := by
  exact (C7_active_enrollment_uniqueness today0 [batch0] []).2.1
    [⟨1, 30, 20, startMonth0, some 1000, true⟩] ed0 2 (by decide) (by decide)

/-- C8: a webhook POST whose x-bkash-signature header is missing or differs
from base64-HMAC-SHA256(raw body, app secret) — the HMAC abstracted as the
function mac — is answered 403 Invalid signature with the store untouched;
conversely any webhook POST that changes the store carried exactly that
signature. -/
theorem C8_webhook_signature_gate (mac : String → String → String) (secret : String)
    (now : Instant) (db : DB) (req : WebhookRequest) :
    ((req.signature = none ∨ ∀ s, req.signature = some s → s ≠ mac secret req.rawBody) →
      webhook_post mac secret now db req = (db, ⟨403, some "Invalid signature", none⟩)) ∧
    ((webhook_post mac secret now db req).1 ≠ db →
      req.signature = some (mac secret req.rawBody)) := by
  constructor
  · intro h
    have hv : verify_signature mac secret req = false := by
      unfold verify_signature compare_digest
      rcases hsig : req.signature with _ | s
      · rfl
      · rcases h with h | h
        · rw [hsig] at h; cases h
        · have := h s hsig
          simp [this]
    simp [webhook_post, hv]
  · intro hne
    by_cases hv : verify_signature mac secret req = true
    · unfold verify_signature compare_digest at hv
      rcases hsig : req.signature with _ | s
      · rw [hsig] at hv; cases hv
      · rw [hsig] at hv
        simp only [beq_iff_eq] at hv
        rw [hv]
    · exfalso
      apply hne
      have hv2 : verify_signature mac secret req = false := by
        cases hb : verify_signature mac secret req
        · rfl
        · exact absurd hb hv
      simp [webhook_post, hv2]

/-- C8 witness: a wrongly signed delivery of the scenario notification is
rejected without touching the store. -/
theorem C8_webhook_signature_gate_witness :
    webhook_post mac0 secret0 now0 dbA
      ⟨some "WRONG", "notif-body-0", some ⟨some "Notification", some msg0, none⟩⟩ =
      (dbA, ⟨403, some "Invalid signature", none⟩) := by
  exact (C8_webhook_signature_gate mac0 secret0 now0 dbA _).1
    (Or.inr (fun s hs => by injection hs with hs; subst hs; decide))

/-- Fetching a token posts exactly one grant request. -/
theorem bkash_get_token_log (now : Instant) (cs : ClientState) (script : List HttpResult) :
    (bkash_get_token now cs script).log = [.tokenGrant] := by
  unfold bkash_get_token
  rcases script with _ | ⟨r, rest⟩
  · rfl
  · cases r
    · dsimp only
      split
      · rfl
      · split <;> rfl
    · rfl

/-- When the cached token is invalid, every gateway call starts by posting a
token grant. -/
theorem postWithAuthRetry_log_head (endpoint : BkashReq) (now : Instant)
    (cs : ClientState) (sc : List HttpResult) (hT : tokenNeedsRefresh now cs = true) :
    (postWithAuthRetry endpoint now cs sc).log.head? = some .tokenGrant := by
  have hens : bkash_ensure_token now cs sc = bkash_get_token now cs sc := by
    simp [bkash_ensure_token, hT]
  have hlog := bkash_get_token_log now cs sc
  unfold postWithAuthRetry
  rw [hens]
  rcases hgt : bkash_get_token now cs sc with ⟨cst, scr, lg, res⟩
  rw [hgt] at hlog
  dsimp at hlog ⊢
  subst hlog
  (repeat' split) <;> simp

/-- C9: every gateway call (create, execute, query) first ensures a valid
token — a no-op when the cached token is present and more than 5 minutes from
expiry, otherwise a token grant is posted first; and a 401 mid-call makes the
client discard the cached token, re-authenticate, and retry that single call
exactly once, surfacing failure if the retry still fails; a non-401 success
consumes exactly one response with no retry. -/
theorem C9_client_token_retry (now : Instant) (cs : ClientState)
    (script rest : List HttpResult) (g1 g2 : GatewayResp) (tok2 : String) (st2 : ℕ)
    (hv : tokenNeedsRefresh now cs = false) :
    bkash_ensure_token now cs script = ⟨cs, script, [], .ok ()⟩ ∧
    (∀ cs2, tokenNeedsRefresh now cs2 = true →
      bkash_ensure_token now cs2 script = bkash_get_token now cs2 script ∧
      (bkash_get_token now cs2 script).log = [.tokenGrant]) ∧
    (tokenNeedsRefresh now cs = true → ∀ sc,
      (bkash_create_payment now cs sc).log.head? = some .tokenGrant ∧
      (bkash_execute_payment now cs sc).log.head? = some .tokenGrant ∧
      (bkash_query_payment now cs sc).log.head? = some .tokenGrant) ∧
    (bkash_create_payment now cs
        (.resp 401 none none none g1 :: .resp 200 (some tok2) none none g1 ::
         .resp st2 none none none g2 :: rest) =
      ⟨⟨some tok2, some (now + 3600), none⟩, rest,
       [.checkoutCreate, .tokenGrant, .checkoutCreate],
       if 400 ≤ st2 then .error "HTTPError" else .ok g2⟩) ∧
    (bkash_execute_payment now cs
        (.resp 401 none none none g1 :: .resp 200 (some tok2) none none g1 ::
         .resp st2 none none none g2 :: rest) =
      ⟨⟨some tok2, some (now + 3600), none⟩, rest,
       [.checkoutExecute, .tokenGrant, .checkoutExecute],
       if 400 ≤ st2 then .error "HTTPError" else .ok g2⟩) ∧
    (bkash_query_payment now cs
        (.resp 401 none none none g1 :: .resp 200 (some tok2) none none g1 ::
         .resp st2 none none none g2 :: rest) =
      ⟨⟨some tok2, some (now + 3600), none⟩, rest,
       [.checkoutQuery, .tokenGrant, .checkoutQuery],
       if 400 ≤ st2 then .error "HTTPError" else .ok g2⟩) ∧
    (∀ g, bkash_create_payment now cs (.resp 200 none none none g :: rest) =
      ⟨cs, rest, [.checkoutCreate], .ok g⟩) := by
  refine ⟨by simp [bkash_ensure_token, hv], fun cs2 h2 => ⟨by simp [bkash_ensure_token, h2],
    bkash_get_token_log now cs2 script⟩, fun hT sc => ?_, ?_, ?_, ?_, fun g => ?_⟩
  · exact ⟨postWithAuthRetry_log_head .checkoutCreate now cs sc hT,
      postWithAuthRetry_log_head .checkoutExecute now cs sc hT,
      postWithAuthRetry_log_head .checkoutQuery now cs sc hT⟩
  · have hT2 : tokenNeedsRefresh now { cs with token := none } = true := by
      simp [tokenNeedsRefresh, pyFalsyStr]
    by_cases h4 : 400 ≤ st2 <;>
      simp [bkash_create_payment, postWithAuthRetry, bkash_ensure_token, hv, hT2,
        bkash_get_token, h4]
  · have hT2 : tokenNeedsRefresh now { cs with token := none } = true := by
      simp [tokenNeedsRefresh, pyFalsyStr]
    by_cases h4 : 400 ≤ st2 <;>
      simp [bkash_execute_payment, postWithAuthRetry, bkash_ensure_token, hv, hT2,
        bkash_get_token, h4]
  · have hT2 : tokenNeedsRefresh now { cs with token := none } = true := by
      simp [tokenNeedsRefresh, pyFalsyStr]
    by_cases h4 : 400 ≤ st2 <;>
      simp [bkash_query_payment, postWithAuthRetry, bkash_ensure_token, hv, hT2,
        bkash_get_token, h4]
  · simp [bkash_create_payment, postWithAuthRetry, bkash_ensure_token, hv]

/-- C9 witness: a concrete 401-then-success run retries exactly once. -/
theorem C9_client_token_retry_witness :
    bkash_create_payment 0 ⟨some "T", some 100000, none⟩
        [.resp 401 none none none ⟨none, none, none, none, none⟩,
         .resp 200 (some "T2") none none ⟨none, none, none, none, none⟩,
         .resp 200 none none none ⟨some "0000", none, none, none, none⟩] =
      ⟨⟨some "T2", some 3600, none⟩, [],
       [.checkoutCreate, .tokenGrant, .checkoutCreate],
       .ok ⟨some "0000", none, none, none, none⟩⟩ := by
  have h := (C9_client_token_retry 0 ⟨some "T", some 100000, none⟩ [] []
    ⟨none, none, none, none, none⟩ ⟨some "0000", none, none, none, none⟩ "T2" 200
    (by decide)).2.2.2.1
  simpa using h

end Tumio
